import Mathlib

/-!
Shallow embedding of the `hass-vibbo-feed` custom component
(`custom_components/vibbo/`): the coordinator's update logic
(`coordinator.py`), the sensor's presentation mapping (`sensor.py`),
the authentication walker (`auth.py`) and the config flow's pure decision
logic (`config_flow.py`), together with theorems settling the frozen
claims about them.

Decoded JSON bodies are modelled by the inductive `JValue`; the Python
container operations the code uses (`in`, `[...]`, `.get`, `len`,
truthiness, iteration) are modelled as total Lean functions that return
`Except PyErr _`, mirroring the exceptions CPython raises on mismatched
operand types.
-/

namespace Vibbo

/-- A decoded JSON document, as returned by `resp.json()`, i.e. the
Python values `None`, `bool`, `int`, `str`, `list` and `dict` (numbers
are restricted to integers, which covers every value the claims
touch). -/
inductive JValue where
  | jnull
  | jbool (b : Bool)
  | jint (n : Int)
  | jstr (s : String)
  | jlist (xs : List JValue)
  | jdict (fields : List (String × JValue))

/-- Python truthiness (`bool(v)`) for a decoded JSON value. -/
def JValue.truthy : JValue → Bool
  | .jnull => false
  | .jbool b => b
  | .jint n => n != 0
  | .jstr s => !s.data.isEmpty
  | .jlist xs => !xs.isEmpty
  | .jdict fields => !fields.isEmpty

/-- First binding for a key in the field list of a JSON object.  JSON
objects decoded by `json` have unique keys, so first-match lookup is
exact. -/
def jLookup (fields : List (String × JValue)) (k : String) : Option JValue :=
  match fields with
  | [] => none
  | f :: rest => if f.1 = k then some f.2 else jLookup rest k

/-- The Python exceptions that the embedded fragments can raise besides
the domain errors (`UpdateFailed` / `AuthError`). -/
inductive PyErr where
  | typeError
  | attributeError
  | keyError
  | indexError

/-- Prefix test on character lists. -/
def isPrefixChars : List Char → List Char → Bool
  | [], _ => true
  | _ :: _, [] => false
  | c :: cs, d :: ds => c = d && isPrefixChars cs ds

/-- Substring occurrence test on character lists. -/
def containsSubAux (needle : List Char) : List Char → Bool
  | [] => isPrefixChars needle []
  | c :: cs => isPrefixChars needle (c :: cs) || containsSubAux needle cs

/-- Substring test, as used by Python's `needle in haystack` on strings.
An empty needle is contained in every string. -/
def strContainsSub (hay needle : String) : Bool :=
  containsSubAux needle.data hay.data

/-- Python's `k in v` for a string key `k`: key membership on dicts,
element equality on lists, substring on strings, `TypeError` otherwise. -/
def pyContains (k : String) (v : JValue) : Except PyErr Bool :=
  match v with
  | .jdict fields => .ok (fields.any fun f => f.1 = k)
  | .jlist xs => .ok (xs.any fun x => match x with | .jstr s => s = k | _ => false)
  | .jstr s => .ok (strContainsSub s k)
  | _ => .error .typeError

/-- Python's `v[k]` for a string key: dict lookup (`KeyError` when the
key is absent), `TypeError` on every other value. -/
def pyGetItemStr (v : JValue) (k : String) : Except PyErr JValue :=
  match v with
  | .jdict fields =>
    match jLookup fields k with
    | some x => .ok x
    | none => .error .keyError
  | _ => .error .typeError

/-- Python's `v[0]`: head of a list, first character of a string
(`IndexError` when empty), `KeyError` on a JSON-decoded dict (whose keys
are all strings), `TypeError` otherwise. -/
def pyGetItem0 (v : JValue) : Except PyErr JValue :=
  match v with
  | .jlist [] => .error .indexError
  | .jlist (x :: _) => .ok x
  | .jstr s =>
    match s.data with
    | [] => .error .indexError
    | c :: _ => .ok (.jstr (String.singleton c))
  | .jdict _ => .error .keyError
  | _ => .error .typeError

/-- Python's `v.get(k, dflt)`: a dict method, so `AttributeError` on any
non-dict value. -/
def pyGetD (v : JValue) (k : String) (dflt : JValue) : Except PyErr JValue :=
  match v with
  | .jdict fields => .ok ((jLookup fields k).getD dflt)
  | _ => .error .attributeError

/-- Python's `len(v)`: `TypeError` on values without a length. -/
def pyLen (v : JValue) : Except PyErr Nat :=
  match v with
  | .jstr s => .ok s.length
  | .jlist xs => .ok xs.length
  | .jdict fields => .ok fields.length
  | _ => .error .typeError

/-- Python's `for x in v`: elements of a list, keys of a dict,
one-character strings of a string, `TypeError` otherwise. -/
def pyIterate (v : JValue) : Except PyErr (List JValue) :=
  match v with
  | .jlist xs => .ok xs
  | .jdict fields => .ok (fields.map fun f => .jstr f.1)
  | .jstr s => .ok (s.data.map fun c => .jstr (String.singleton c))
  | _ => .error .typeError

mutual

/-- Python's `repr` of a decoded JSON value (string escaping inside
reprs is approximated; no theorem depends on it). -/
def pyRepr : JValue → String
  | .jnull => "None"
  | .jbool b => if b then "True" else "False"
  | .jint n => toString n
  | .jstr s => "\x27" ++ s ++ "\x27"
  | .jlist xs => "[" ++ pyReprList xs ++ "]"
  | .jdict fields => "\x7b" ++ pyReprFields fields ++ "\x7d"

/-- Comma-separated reprs of list elements. -/
def pyReprList : List JValue → String
  | [] => ""
  | [x] => pyRepr x
  | x :: xs => pyRepr x ++ ", " ++ pyReprList xs

/-- Comma-separated reprs of dict entries. -/
def pyReprFields : List (String × JValue) → String
  | [] => ""
  | [f] => "\x27" ++ f.1 ++ "\x27: " ++ pyRepr f.2
  | f :: fs => "\x27" ++ f.1 ++ "\x27: " ++ pyRepr f.2 ++ ", " ++ pyReprFields fs

end

/-- Python's `str(v)`, as used by f-string interpolation. -/
def pyStr : JValue → String
  | .jstr s => s
  | v => pyRepr v

/-! ## Coordinator (`coordinator.py`)

`VibboDataCoordinator._async_update_data` posts one GraphQL request and
classifies the decoded body.  The outcome is either the returned items
value, a raised `UpdateFailed`, or another Python exception escaping the
function (nothing after the `try` block catches one). -/

/-- Outcome of a failed `_async_update_data` call: the typed
`UpdateFailed` with its message, or an untyped Python exception. -/
inductive UpdateError where
  | updateFailed (msg : String)
  | pyError (e : PyErr)

/-- The malformed-body test of `coordinator.py` lines 96-100:
`not isinstance(data, dict) or "data" not in data or
"stream" not in data.get("data", {})`, with Python's short-circuit
evaluation; the third disjunct can raise `TypeError` when the value
under `"data"` is not a container. -/
def malformedCheck (data : JValue) : Except PyErr Bool :=
  match data with
  | .jdict fields =>
    if !(fields.any fun f => f.1 = "data") then .ok true
    else
      match pyGetD data "data" (.jdict []) with
      | .error e => .error e
      | .ok inner =>
        match pyContains "stream" inner with
        | .error e => .error e
        | .ok hasStream => .ok !hasStream
  | _ => .ok true

/-- The body-classification part of `_async_update_data`
(`coordinator.py` lines 96-109), applied to the decoded 200-response
body. -/
def processBody (data : JValue) : Except UpdateError JValue :=
  match malformedCheck data with
  | .error e => .error (.pyError e)
  | .ok true =>
    let errs : JValue :=
      match data with
      | .jdict fields => (jLookup fields "errors").getD (.jlist [])
      | _ => .jlist []
    if errs.truthy then
      match pyGetItem0 errs with
      | .error e => .error (.pyError e)
      | .ok first =>
        match pyGetD first "message" errs with
        | .error e => .error (.pyError e)
        | .ok msg => .error (.updateFailed ("Vibbo API error: " ++ pyStr msg))
    else
      .error (.updateFailed "Invalid response from Vibbo API")
  | .ok false =>
    match pyGetItemStr data "data" with
    | .error e => .error (.pyError e)
    | .ok d1 =>
      match pyGetItemStr d1 "stream" with
      | .error e => .error (.pyError e)
      | .ok stream =>
        match pyGetD stream "items" (.jlist []) with
        | .error e => .error (.pyError e)
        | .ok items => .ok items

/-- One poll cycle of `_async_update_data` after the HTTP exchange: a
non-200 status raises `UpdateFailed` (`coordinator.py` lines 84-87),
otherwise the decoded body is classified. -/
def updateData (status : Nat) (body : JValue) : Except UpdateError JValue :=
  if status ≠ 200 then
    .error (.updateFailed ("Vibbo API returned HTTP " ++ toString status))
  else
    processBody body

/-! ## Sensor (`sensor.py`) -/

/-- `VibboFeedSensor.native_value` (`sensor.py` lines 49-57) as a
function of `self.coordinator.data` (`none` before the first successful
refresh). -/
def nativeValue (data : Option JValue) : Except PyErr JValue :=
  match data with
  | none => .ok (.jstr "No Data")
  | some d =>
    if d.truthy then
      match pyGetItem0 d with
      | .error e => .error e
      | .ok first =>
        match pyGetD first "item" (.jdict []) with
        | .error e => .error e
        | .ok item =>
          match pyGetD item "title" (.jstr "No Data") with
          | .error e => .error e
          | .ok title =>
            match pyLen title with
            | .error e => .error e
            | .ok n =>
              if n > 50 then
                -- `title[:50] + "…"`: character slicing on a str; every
                -- other sliceable value raises TypeError on the `+ str`.
                match title with
                | .jstr s => .ok (.jstr (String.mk (s.data.take 50) ++ "…"))
                | _ => .error .typeError
              else
                .ok title
    else
      .ok (.jstr "No Data")

/-! ## Login-flow walker (`auth.py`)

`start_login` scrapes `_csrf`, `state` and `nonce` from the login page
using `re.search` with several fallback patterns and `parse_qs` on the
final URL's query string.  The concrete patterns are small enough to
embed directly as deterministic scanners (none of them can backtrack:
in each pattern the greedy classes are disjoint from the literal that
follows). -/

/-- Python's `\s` on the ASCII range (`str.strip` and `re` whitespace;
the non-ASCII whitespace code points never appear in the claims). -/
def pyWs (c : Char) : Bool :=
  c = ' ' || c = '\t' || c = '\n' || c = '\r' || c = '\x0b' || c = '\x0c'

/-- Match a literal character list at the head, returning the rest. -/
def dropLit : List Char → List Char → Option (List Char)
  | [], s => some s
  | c :: cs, d :: ds => if d = c then dropLit cs ds else none
  | _ :: _, [] => none

/-- Greedily drop `\s*`. -/
def dropWs : List Char → List Char
  | [] => []
  | c :: cs => if pyWs c then dropWs cs else c :: cs

/-- Match `\s+` (at least one whitespace character), greedily. -/
def dropWs1 : List Char → Option (List Char)
  | c :: cs => if pyWs c then some (dropWs cs) else none
  | [] => none

/-- Greedily capture `[^bad]*`, returning the capture and the rest. -/
def takeCapture (bad : List Char) : List Char → (List Char × List Char)
  | [] => ([], [])
  | c :: cs =>
    if bad.contains c then ([], c :: cs)
    else
      let r := takeCapture bad cs
      (c :: r.1, r.2)

/-- Match the pattern `"key"\s*:\s*"([^"]+)"` at the current position,
returning the capture (the first `re.search` fallback for `_csrf`, and
the only fallback for `state` and `nonce`). -/
def jsonKeyValueAt (key : String) (s : List Char) : Option String := do
  let s ← dropLit ("\"" ++ key ++ "\"").data s
  let s := dropWs s
  let s ← dropLit [':'] s
  let s := dropWs s
  let s ← dropLit ['"'] s
  let r := takeCapture ['"'] s
  if r.1.isEmpty then none
  else do
    let _ ← dropLit ['"'] r.2
    some (String.mk r.1)

/-- Match `name="_csrf"\s+value="([^"]+)"` at the current position. -/
def csrfInputAt (s : List Char) : Option String := do
  let s ← dropLit "name=\"_csrf\"".data s
  let s ← dropWs1 s
  let s ← dropLit "value=\"".data s
  let r := takeCapture ['"'] s
  if r.1.isEmpty then none
  else do
    let _ ← dropLit ['"'] r.2
    some (String.mk r.1)

/-- Match `"_csrf","([^"]+)"` at the current position. -/
def csrfPairAt (s : List Char) : Option String := do
  let s ← dropLit "\"_csrf\",\"".data s
  let r := takeCapture ['"'] s
  if r.1.isEmpty then none
  else do
    let _ ← dropLit ['"'] r.2
    some (String.mk r.1)

/-- Match the loose fallback
`_csrf[\x27"]?\s*[:=]\s*[\x27"]([^\x27"]+)` at the current position. -/
def csrfLooseAt (s : List Char) : Option String := do
  let s ← dropLit "_csrf".data s
  let s := match s with
    | c :: cs => if c = '\x27' || c = '"' then cs else c :: cs
    | [] => []
  let s := dropWs s
  let s ← match s with
    | c :: cs => if c = ':' || c = '=' then some cs else none
    | [] => none
  let s := dropWs s
  let s ← match s with
    | c :: cs => if c = '\x27' || c = '"' then some cs else none
    | [] => none
  let r := takeCapture ['\x27', '"'] s
  if r.1.isEmpty then none else some (String.mk r.1)

/-- Semantics of `re.search`: try the position matcher at every suffix,
left to right. -/
def searchAux (m : List Char → Option String) : List Char → Option String
  | [] => m []
  | c :: cs =>
    match m (c :: cs) with
    | some r => some r
    | none => searchAux m cs

/-- Search a whole string with a position matcher. -/
def reSearch (m : List Char → Option String) (html : String) : Option String :=
  searchAux m html.data

/-- The `_csrf` extraction of `auth.py` lines 89-94: four `re.search`
fallbacks combined with Python's `or`. -/
def findCsrf (html : String) : Option String :=
  (reSearch (jsonKeyValueAt "_csrf") html).orElse fun _ =>
  (reSearch csrfInputAt html).orElse fun _ =>
  (reSearch csrfPairAt html).orElse fun _ =>
  reSearch csrfLooseAt html

/-- Characters before the first occurrence of a separator (the whole
list when the separator is absent). -/
def takeUntilChar (sep : Char) : List Char → List Char
  | [] => []
  | c :: cs => if c = sep then [] else c :: takeUntilChar sep cs

/-- Characters after the first occurrence of a separator, if present. -/
def afterChar (sep : Char) : List Char → Option (List Char)
  | [] => none
  | c :: cs => if c = sep then some cs else afterChar sep cs

/-- The query component of a URL, as produced by `urlparse`: the
fragment (everything from the first `#`) is split off first, then the
query is everything after the first `?` of what is left (later `?`
characters belong to the query). -/
def queryOf (url : String) : String :=
  match afterChar '?' (takeUntilChar '#' url.data) with
  | none => ""
  | some q => String.mk q

/-- Value of a hex digit, if any, read off the character's code point
(48-57 are the digits, 97-102 and 65-70 the lower- and upper-case
letters). -/
def hexDigit (c : Char) : Option Nat :=
  let n := c.toNat
  if 48 ≤ n ∧ n ≤ 57 then some (n - 48)
  else if 97 ≤ n ∧ n ≤ 102 then some (n - 87)
  else if 65 ≤ n ∧ n ≤ 70 then some (n - 55)
  else none

/-- `urllib.parse.unquote_plus` on the character level: `+` becomes a
space and `%XY` becomes the code point `0xXY` (CPython decodes percent
byte runs as UTF-8; this embedding is exact on the ASCII range, which
covers every token the login flow extracts). -/
def unquotePlusChars : List Char → List Char
  | [] => []
  | '+' :: cs => ' ' :: unquotePlusChars cs
  | '%' :: c1 :: c2 :: cs =>
    match hexDigit c1, hexDigit c2 with
    | some h, some l => Char.ofNat (16 * h + l) :: unquotePlusChars cs
    | _, _ => '%' :: unquotePlusChars (c1 :: c2 :: cs)
  | c :: cs => c :: unquotePlusChars cs

/-- Split a character list on every occurrence of a separator. -/
def splitOnChar (sep : Char) : List Char → List (List Char)
  | [] => [[]]
  | c :: cs =>
    if c = sep then [] :: splitOnChar sep cs
    else
      match splitOnChar sep cs with
      | [] => [[c]]
      | f :: rest => (c :: f) :: rest

/-- Split at the first `=`, like Python's `split("=", 1)`; `none` when
there is no `=`. -/
def splitFirstEq : List Char → Option (List Char × List Char)
  | [] => none
  | c :: cs =>
    if c = '=' then some ([], cs)
    else (splitFirstEq cs).map fun p => (c :: p.1, p.2)

/-- `urllib.parse.parse_qsl` with the default arguments: split the query
on `&`, skip empty fields, skip fields without `=` and fields with a
blank value (`keep_blank_values=False`), and percent-decode both
sides. -/
def parseQsl (query : String) : List (String × String) :=
  (splitOnChar '&' query.data).filterMap fun field =>
    if field.isEmpty then none
    else
      match splitFirstEq field with
      | none => none
      | some kv =>
        if kv.2.isEmpty then none
        else some (String.mk (unquotePlusChars kv.1),
                   String.mk (unquotePlusChars kv.2))

/-- `parse_qs(query).get(key, [None])[0]`: the first value bound to the
key, if any (blank values never appear, so presence equals
truthiness). -/
def qsFirst (query key : String) : Option String :=
  ((parseQsl query).find? fun p => p.1 = key).map fun p => p.2

/-- The transient per-login record scraped from the login page
(`auth.py` `AuthSession`). -/
structure AuthSession where
  state : String
  csrf : String
  nonce : String
  login_url : String

/-- The `state` extraction of `auth.py` lines 102-106: query parameter
first, HTML regex fallback when absent (query-string values are never
blank, so presence coincides with Python truthiness). -/
def stateLookup (html final_url : String) : Option String :=
  match qsFirst (queryOf final_url) "state" with
  | some s => some s
  | none => reSearch (jsonKeyValueAt "state") html

/-- The `nonce` extraction of `auth.py` lines 110-114, analogous to the
state extraction. -/
def nonceLookup (html final_url : String) : Option String :=
  match qsFirst (queryOf final_url) "nonce" with
  | some s => some s
  | none => reSearch (jsonKeyValueAt "nonce") html

/-- `start_login` (`auth.py` lines 73-123) as a function of the login
page HTML and the final URL after redirects.  `AuthError` is modelled as
the `Except.error` case carrying the exception message. -/
def start_login (html : String) (final_url : String) : Except String AuthSession :=
  match findCsrf html with
  | none => .error "Could not find _csrf token in login page"
  | some csrf =>
    match stateLookup html final_url with
    | none => .error "Could not find state in login page"
    | some st =>
      match nonceLookup html final_url with
      | none => .error "Could not find nonce in login page"
      | some no =>
        .ok { state := st, csrf := csrf, nonce := no, login_url := final_url }

/-- `request_sms_code` (`auth.py` lines 126-162) as a function of the
HTTP response to `POST /passwordless/start`. -/
def request_sms_code (status : Nat) (text : String) : Except String Unit :=
  if status ≠ 200 then
    .error ("Failed to request SMS code: " ++ toString status ++ " " ++ text)
  else
    .ok ()

/-- Last value bound to a cookie name in the session's cookie jar: the
`for cookie in session.cookie_jar` loop of `auth.py` lines 226-230
overwrites on every hit, so the last occurrence wins. -/
def cookieJarLookup (jar : List (String × String)) (key : String) : Option String :=
  jar.foldl (fun acc c => if c.1 = key then some c.2 else acc) none

/-- `verify_code_and_get_cookie` (`auth.py` lines 165-235) as a function
of the `POST /passwordless/verify` response and the cookie jar after the
redirect chain.  Note `if not sesid or not sesid_sig` also rejects empty
cookie values. -/
def verify_code_and_get_cookie (verifyStatus : Nat) (verifyText : String)
    (jar : List (String × String)) : Except String String :=
  if verifyStatus ≠ 200 then
    .error ("Verification failed: " ++ toString verifyStatus ++ " " ++ verifyText)
  else
    match cookieJarLookup jar "sesid", cookieJarLookup jar "sesid.sig" with
    | some s, some g =>
      if s = "" ∨ g = "" then
        .error "Failed to obtain Vibbo session cookies after login"
      else
        .ok ("sesid=" ++ s ++ "; sesid.sig=" ++ g)
    | _, _ => .error "Failed to obtain Vibbo session cookies after login"

/-! ## Organization lookup (`auth.py` lines 238-324)

`fetch_organizations` runs `_graphql` and turns the viewer's
memberships into `Membership` values.  Failures are the `AuthError`
branch or an escaping Python exception. -/

/-- Outcome of a failed auth-layer call: `AuthError` with its message,
or an untyped Python exception. -/
inductive AuthFail where
  | authError (msg : String)
  | pyError (e : PyErr)

/-- The `Membership` dataclass of `auth.py` lines 52-60.  Field values
are kept as decoded JSON values, exactly as Python stores them; the
defaults mirror the dataclass defaults (`org_id=""`,
`obos_company_number=""`, `roles=[]`). -/
structure Membership where
  name : JValue
  slug : JValue
  org_id : JValue := .jstr ""
  obos_company_number : JValue := .jstr ""
  roles : JValue := .jlist []

/-- The response handling of `_graphql` (`auth.py` lines 258-267) as a
function of the HTTP status and the decoded body: non-200 raises
`AuthError`, a body with an `errors` member raises `AuthError` with the
first error's message, otherwise the body is returned. -/
def graphqlResult (operationName : String) (status : Nat) (data : JValue) :
    Except AuthFail JValue :=
  if status ≠ 200 then
    .error (.authError ("GraphQL query " ++ operationName ++ " failed: " ++
      toString status))
  else
    match pyContains "errors" data with
    | .error e => .error (.pyError e)
    | .ok true =>
      match pyGetItemStr data "errors" with
      | .error e => .error (.pyError e)
      | .ok errs =>
        match pyGetItem0 errs with
        | .error e => .error (.pyError e)
        | .ok first =>
          match pyGetD first "message" (.jstr (pyStr errs)) with
          | .error e => .error (.pyError e)
          | .ok msg => .error (.authError ("GraphQL error: " ++ pyStr msg))
    | .ok false => .ok data

/-- Construction of one `Membership` from a raw membership entry
(`auth.py` lines 286-293): `m["name"]`, `m["slug"]`,
`m.get("obosCompanyNumber", "")`, `m.get("roles", [])`, evaluated left
to right; `org_id` keeps its dataclass default. -/
def membershipOfEntry (m : JValue) : Except AuthFail Membership :=
  match pyGetItemStr m "name" with
  | .error e => .error (.pyError e)
  | .ok name =>
    match pyGetItemStr m "slug" with
    | .error e => .error (.pyError e)
    | .ok slug =>
      match pyGetD m "obosCompanyNumber" (.jstr "") with
      | .error e => .error (.pyError e)
      | .ok obos =>
        match pyGetD m "roles" (.jlist []) with
        | .error e => .error (.pyError e)
        | .ok roles =>
          .ok { name := name, slug := slug,
                obos_company_number := obos, roles := roles }

/-- The membership loop of `fetch_organizations` (`auth.py` lines
283-293): entries whose `vibboEnabled` member is falsy (or absent) are
skipped; eligible entries are converted in order. -/
def buildMemberships : List JValue → Except AuthFail (List Membership)
  | [] => .ok []
  | m :: rest =>
    match pyGetD m "vibboEnabled" .jnull with
    | .error e => .error (.pyError e)
    | .ok en =>
      if en.truthy then
        match membershipOfEntry m with
        | .error e => .error e
        | .ok mem =>
          match buildMemberships rest with
          | .error e => .error e
          | .ok ms => .ok (mem :: ms)
      else
        buildMemberships rest

/-- The raw membership entries `fetch_organizations` iterates over:
`data.get("data", {}).get("viewer")`, the viewer truthiness check
(`auth.py` lines 279-281), then `viewer.get("memberships", [])` fed to
the `for` loop. -/
def viewerEntries (data : JValue) : Except AuthFail (List JValue) :=
  match pyGetD data "data" (.jdict []) with
  | .error e => .error (.pyError e)
  | .ok d1 =>
    match pyGetD d1 "viewer" .jnull with
    | .error e => .error (.pyError e)
    | .ok viewer =>
      if !viewer.truthy then .error (.authError "No viewer data in response")
      else
        match pyGetD viewer "memberships" (.jlist []) with
        | .error e => .error (.pyError e)
        | .ok raw =>
          match pyIterate raw with
          | .error e => .error (.pyError e)
          | .ok entries => .ok entries

/-- The body of `fetch_organizations` after `_graphql` (`auth.py` lines
279-298), including the final non-emptiness check. -/
def fetchOrganizationsFromData (data : JValue) : Except AuthFail (List Membership) :=
  match viewerEntries data with
  | .error e => .error e
  | .ok entries =>
    match buildMemberships entries with
    | .error e => .error e
    | .ok memberships =>
      if memberships.isEmpty then
        .error (.authError "No Vibbo-enabled organizations found for this account")
      else
        .ok memberships

/-- `fetch_organizations` (`auth.py` lines 270-298) as a function of the
HTTP response to the `vibboOrganizations` query. -/
def fetch_organizations (status : Nat) (data : JValue) :
    Except AuthFail (List Membership) :=
  match graphqlResult "vibboOrganizations" status data with
  | .error e => .error e
  | .ok d => fetchOrganizationsFromData d

/-! ## Config flow (`config_flow.py`) -/

/-- The step shown right after a successful verify-code step. -/
inductive FlowStep where
  | options
  | selectOrganization

/-- The dispatch after `fetch_organizations` succeeds in
`async_step_verify_code` (`config_flow.py` lines 152-157): with exactly
one membership it is selected and the interval step follows directly;
otherwise the organization-selection step is shown (and nothing is
selected yet). -/
def afterFetchOrganizations (ms : List Membership) : Option Membership × FlowStep :=
  match ms with
  | [m] => (some m, .options)
  | _ => (none, .selectOrganization)

/-- The phone-number normalization of `async_step_user`
(`config_flow.py` lines 98-100): strip surrounding whitespace, then
prefix `+47` unless the number already starts with `+`. -/
def pyStrip (s : String) : String :=
  String.mk ((dropWs (dropWs s.data.reverse).reverse))

/-- Python's `s.startswith(p)`, as a structural prefix test. -/
def pyStartsWith (s p : String) : Bool :=
  isPrefixChars p.data s.data

/-- `normalize_phone` models `config_flow.py` lines 98-100. -/
def normalize_phone (input : String) : String :=
  let phone := pyStrip input
  if pyStartsWith phone "+" then phone else "+47" ++ phone

/-- The scan-interval validator `vol.All(int, vol.Range(min=5))` used by
both `async_step_options` (`config_flow.py` line 234) and the options
flow (`config_flow.py` line 265): the value must be an `int` instance
(Python `bool` is an `int` subclass, so `True`/`False` reach the range
check as `1`/`0`) and at least 5.  Returns the validated value. -/
def validateScanInterval (v : JValue) : Option Int :=
  match v with
  | .jint n => if 5 ≤ n then some n else none
  | .jbool b =>
    let n : Int := if b then 1 else 0
    if 5 ≤ n then some n else none
  | _ => none

/-- The options mapping carried by a created config entry or produced by
the options flow. -/
structure ConfigEntryOptions where
  scan_interval : Int

/-- The setup flow's interval step (`config_flow.py` lines 208-238): the
host validates the submitted value against the schema before the step
body runs, so an entry is only created from a validated value. -/
def setupOptionsStepResult (v : JValue) : Option ConfigEntryOptions :=
  (validateScanInterval v).map fun n => { scan_interval := n }

/-- The options flow's form (`config_flow.py` lines 248-268), with the
same schema and the same host-side validation. -/
def optionsFlowResult (v : JValue) : Option ConfigEntryOptions :=
  (validateScanInterval v).map fun n => { scan_interval := n }

/-! ## Coordinator request payload (`coordinator.py` lines 56-75,
`const.py`) -/

/-- `GRAPHQL_QUERY` from `const.py` lines 16-57, transcribed verbatim. -/
def GRAPHQL_QUERY : String :=
  "query vibboActivityStream(\n" ++
  "  $organizationId: OrganizationID!\n" ++
  "  $limit: Int\n" ++
  "  $filter: OrganizationActivityFilter\n" ++
  ") \x7b\n" ++
  "  stream: activityInOrganization(\n" ++
  "    organizationId: $organizationId\n" ++
  "    limit: $limit\n" ++
  "    filter: $filter\n" ++
  "  ) \x7b\n" ++
  "    items \x7b\n" ++
  "      happenedAt\n" ++
  "      item \x7b\n" ++
  "        __typename\n" ++
  "        ... on News \x7b\n" ++
  "          slug\n" ++
  "          title\n" ++
  "          ingress\n" ++
  "          pinned\n" ++
  "          topics \x7b\n" ++
  "            title\n" ++
  "          \x7d\n" ++
  "          commentsCount\n" ++
  "          thumbsUpCount: reactionCount(type: THUMBS_UP)\n" ++
  "        \x7d\n" ++
  "        ... on Post \x7b\n" ++
  "          slug\n" ++
  "          title\n" ++
  "          body\n" ++
  "          category \x7b\n" ++
  "            label\n" ++
  "          \x7d\n" ++
  "          updatedBy \x7b\n" ++
  "            firstName\n" ++
  "          \x7d\n" ++
  "          commentsCount\n" ++
  "          thumbsUpCount: reactionCount(type: THUMBS_UP)\n" ++
  "        \x7d\n" ++
  "      \x7d\n" ++
  "    \x7d\n" ++
  "  \x7d\n" ++
  "\x7d"

/-- `DEFAULT_LIMIT` from `const.py` line 11. -/
def DEFAULT_LIMIT : Int := 10

/-- The persisted config-entry data (`entry.data`), as written by
`_create_entry_for_membership` (`config_flow.py` lines 79-89). -/
structure EntryData where
  cookie : String
  organization_id : String
  organization_slug : String

/-- The coordinator state set up by `VibboDataCoordinator.__init__`
(`coordinator.py` lines 39-44): cookie and organization id from the
entry data, limit from `entry.options.get("limit", DEFAULT_LIMIT)`. -/
structure CoordinatorState where
  cookie : String
  org_id : String
  limit : Int

/-- `VibboDataCoordinator.__init__`'s field initialization. -/
def initCoordinator (d : EntryData) (optLimit : Option Int) : CoordinatorState :=
  { cookie := d.cookie,
    org_id := d.organization_id,
    limit := optLimit.getD DEFAULT_LIMIT }

/-- The single GraphQL POST body a poll cycle sends. -/
structure PollPayload where
  operationName : String
  variablesMap : List (String × JValue)
  query : String

/-- The `payload` dict built by `_async_update_data` (`coordinator.py`
lines 60-68), sent on every poll cycle. -/
def coordinatorPayload (c : CoordinatorState) : PollPayload :=
  { operationName := "vibboActivityStream",
    variablesMap := [("organizationId", .jstr c.org_id),
                  ("limit", .jint c.limit),
                  ("filter", .jstr "ALL")],
    query := GRAPHQL_QUERY }

/-! ## Concrete inputs used by counterexamples and witnesses -/

/-- The canonical GraphQL failure body: `data` is `null` and `errors`
holds one error with a message.  This is the shape the GraphQL spec
prescribes for a request that failed as a whole. -/
def graphqlErrorBody : JValue :=
  .jdict [("data", .jnull),
        ("errors", .jlist [.jdict [("message", .jstr "boom")]])]

/-- A 51-character title. -/
def demoTitle : String := String.mk (List.replicate 51 'a')

/-- A raw membership entry as returned by the `vibboOrganizations`
query. -/
def demoOrgEntry : JValue :=
  .jdict [("name", .jstr "Borettslaget Demo"),
        ("slug", .jstr "borettslaget-demo"),
        ("obosCompanyNumber", .jstr "1234"),
        ("roles", .jlist [.jstr "BOARD_MEMBER"]),
        ("vibboEnabled", .jbool true),
        ("cluster", .jstr "c1")]

/-- A second raw membership entry, not Vibbo-enabled. -/
def demoOrgEntryDisabled : JValue :=
  .jdict [("name", .jstr "Sameiet Annet"),
        ("slug", .jstr "sameiet-annet"),
        ("vibboEnabled", .jbool false)]

/-- A full `vibboOrganizations` response body with one eligible and one
ineligible membership. -/
def demoOrgData : JValue :=
  .jdict [("data", .jdict [("viewer",
    .jdict [("id", .jstr "Vmlld2Vy"),
          ("memberships", .jlist [demoOrgEntry, demoOrgEntryDisabled])])])]

/-- The `Membership` value `fetch_organizations` builds from
`demoOrgEntry`. -/
def demoMembership : Membership :=
  { name := .jstr "Borettslaget Demo",
    slug := .jstr "borettslaget-demo",
    obos_company_number := .jstr "1234",
    roles := .jlist [.jstr "BOARD_MEMBER"] }

/-- A second membership value, for the two-organization flow case. -/
def demoMembership2 : Membership :=
  { name := .jstr "Sameiet Annet", slug := .jstr "sameiet-annet" }

/-- A login-page HTML fragment embedding a `_csrf` token the way the
Auth0 page does. -/
def demoLoginHtml : String :=
  "<script>var cfg = \x7b\"_csrf\": \"tok123\", \"x\": 1\x7d;</script>"

/-- A final login URL whose query string carries `state` and `nonce`. -/
def demoLoginUrl : String :=
  "https://innlogging.obos.no/login?state=st111&nonce=no222&client=abc"

/-- A cookie jar holding both Vibbo session cookies. -/
def demoJar : List (String × String) :=
  [("other", "zzz"), ("sesid", "abc"), ("sesid.sig", "def")]

/-! ## Theorems -/

/-- Claim C1 (code bug): at the canonical GraphQL failure body
`{"data": null, "errors": [{"message": "boom"}]}` — a 200 response whose
body is malformed in the claim's sense and carries a non-empty `errors`
list — `_async_update_data` does not raise `UpdateFailed` at all:
evaluating `"stream" not in data.get("data", {})` with `data["data"]`
equal to `None` raises an untyped `TypeError` before the `errors` branch
is reached, so neither the typed failure nor the first error's message
ever surfaces. -/
theorem updateData_error_body_escapes_untyped :
    updateData 200 graphqlErrorBody = .error (.pyError .typeError) := rfl

/-- Claim C2: when the first feed entry carries an `item` mapping whose
`title` is a string, the sensor state is that title truncated to its
first 50 characters plus one ellipsis character when it is longer than
50 characters, and the unchanged title otherwise. -/
theorem native_value_truncates_long_titles (d0 : JValue) (rest : List JValue)
    (item : JValue) (t : String)
    (h1 : pyGetD d0 "item" (.jdict []) = .ok item)
    (h2 : pyGetD item "title" (.jstr "No Data") = .ok (.jstr t)) :
    nativeValue (some (.jlist (d0 :: rest))) =
      .ok (.jstr (if 50 < t.length then String.mk (t.data.take 50) ++ "…" else t)) := by
  simp only [nativeValue, JValue.truthy, List.isEmpty_cons, Bool.not_false, if_true,
    pyGetItem0, h1, h2, pyLen]
  by_cases h : 50 < t.length
  · simp [h]
  · simp [h]

/-- Witness for C2 at a concrete 51-character title. -/
theorem native_value_truncates_long_titles_witness :
    nativeValue (some (.jlist [.jdict [("item", .jdict [("title", .jstr demoTitle)])]])) =
      .ok (.jstr (if 50 < demoTitle.length
        then String.mk (demoTitle.data.take 50) ++ "…" else demoTitle)) :=
  native_value_truncates_long_titles _ [] _ demoTitle rfl rfl

/-- Claim C7: when the coordinator snapshot is absent (no successful
refresh yet) or an empty item list, the sensor state is the fixed
placeholder string `No Data`. -/
theorem native_value_placeholder_on_empty :
    nativeValue none = .ok (.jstr "No Data") ∧
    nativeValue (some (.jlist [])) = .ok (.jstr "No Data") :=
  ⟨rfl, rfl⟩

/-- Claim C8: the poll request payload built on every cycle uses the
fixed `GRAPHQL_QUERY` constant, the fixed operation name, and a
variables mapping whose keys are exactly `organizationId`, `limit` and
`filter`, with `organizationId` bound to the stored organization id and
`filter` to `"ALL"`. -/
theorem coordinator_payload_fixed_query_and_variables (d : EntryData)
    (optLimit : Option Int) :
    (coordinatorPayload (initCoordinator d optLimit)).query = GRAPHQL_QUERY ∧
    (coordinatorPayload (initCoordinator d optLimit)).operationName =
      "vibboActivityStream" ∧
    (coordinatorPayload (initCoordinator d optLimit)).variablesMap.map Prod.fst =
      ["organizationId", "limit", "filter"] ∧
    jLookup (coordinatorPayload (initCoordinator d optLimit)).variablesMap
      "organizationId" = some (.jstr d.organization_id) ∧
    jLookup (coordinatorPayload (initCoordinator d optLimit)).variablesMap
      "limit" = some (.jint (optLimit.getD DEFAULT_LIMIT)) ∧
    jLookup (coordinatorPayload (initCoordinator d optLimit)).variablesMap
      "filter" = some (.jstr "ALL") :=
  ⟨rfl, rfl, rfl, rfl, rfl, rfl⟩

/-- Claim C5: after a successful verify-code step, a singleton
membership list is selected immediately and the flow goes straight to
the interval-configuration step, while a list of two or more
memberships leads to the organization-selection step with nothing
selected yet. -/
theorem single_membership_skips_selection (m : Membership) (ms : List Membership)
    (h : 2 ≤ ms.length) :
    afterFetchOrganizations [m] = (some m, FlowStep.options) ∧
    afterFetchOrganizations ms = (none, FlowStep.selectOrganization) := by
  refine ⟨rfl, ?_⟩
  match ms, h with
  | a :: b :: rest, _ => rfl

/-- Witness for C5 with one and with two concrete memberships. -/
theorem single_membership_skips_selection_witness :
    afterFetchOrganizations [demoMembership] =
      (some demoMembership, FlowStep.options) ∧
    afterFetchOrganizations [demoMembership, demoMembership2] =
      (none, FlowStep.selectOrganization) :=
  single_membership_skips_selection demoMembership
    [demoMembership, demoMembership2] (by simp)

/-- Claim C6: the shared scan-interval schema `vol.All(int,
vol.Range(min=5))` rejects every integer below 5 in both the setup
flow's interval step and the options flow, and consequently every
created config entry or options mapping carries a scan interval of at
least 5 minutes. -/
theorem scan_interval_minimum_enforced :
    (∀ n : Int, n < 5 →
      setupOptionsStepResult (.jint n) = none ∧
      optionsFlowResult (.jint n) = none) ∧
    (∀ v o, setupOptionsStepResult v = some o → 5 ≤ o.scan_interval) ∧
    (∀ v o, optionsFlowResult v = some o → 5 ≤ o.scan_interval) := by
  have hval : ∀ v n, validateScanInterval v = some n → 5 ≤ n := by
    intro v n h
    match v with
    | .jint m =>
      by_cases hm : 5 ≤ m
      · simp [validateScanInterval, hm] at h
        omega
      · simp [validateScanInterval, hm] at h
    | .jbool b => cases b <;> simp [validateScanInterval] at h
    | .jnull => simp [validateScanInterval] at h
    | .jstr s => simp [validateScanInterval] at h
    | .jlist xs => simp [validateScanInterval] at h
    | .jdict fs => simp [validateScanInterval] at h
  refine ⟨?_, ?_, ?_⟩
  · intro n hn
    have : ¬ (5 ≤ n) := by omega
    constructor <;>
      simp [setupOptionsStepResult, optionsFlowResult, validateScanInterval, this]
  · intro v o h
    simp only [setupOptionsStepResult, Option.map_eq_some'] at h
    obtain ⟨n, hn, ho⟩ := h
    cases ho
    exact hval v n hn
  · intro v o h
    simp only [optionsFlowResult, Option.map_eq_some'] at h
    obtain ⟨n, hn, ho⟩ := h
    cases ho
    exact hval v n hn

/-- Witness for C6: the value 4 is rejected by both forms, and the
accepted value 7 yields an options mapping meeting the minimum. -/
theorem scan_interval_minimum_enforced_witness :
    (setupOptionsStepResult (.jint 4) = none ∧
     optionsFlowResult (.jint 4) = none) ∧
    5 ≤ ({ scan_interval := 7 } : ConfigEntryOptions).scan_interval :=
  ⟨scan_interval_minimum_enforced.1 4 (by decide),
   scan_interval_minimum_enforced.2.1 (.jint 7) { scan_interval := 7 } rfl⟩

/-- Helper: a successful `graphqlResult` returns the decoded body
unchanged. -/
theorem graphqlResult_ok (op : String) (status : Nat) (data d : JValue)
    (h : graphqlResult op status data = .ok d) : d = data := by
  unfold graphqlResult at h
  repeat' first
    | exact Except.noConfusion h
    | exact (Except.ok.inj h).symm
    | split at h

/-- Helper: a successful `fetchOrganizationsFromData` run decomposes
into extracted entries, a successful membership build and a non-empty
result. -/
theorem fetchOrganizationsFromData_ok_inv (data : JValue) (ms : List Membership)
    (h : fetchOrganizationsFromData data = .ok ms) :
    ∃ entries, viewerEntries data = .ok entries ∧
      buildMemberships entries = .ok ms ∧ ms ≠ [] := by
  unfold fetchOrganizationsFromData at h
  split at h
  · exact Except.noConfusion h
  · rename_i entries hve
    split at h
    · exact Except.noConfusion h
    · rename_i mems hbm
      by_cases he : mems.isEmpty = true
      · rw [if_pos he] at h
        exact Except.noConfusion h
      · rw [if_neg he] at h
        have hms := Except.ok.inj h
        subst hms
        exact ⟨entries, hve, hbm, fun hnil => he (by simp [hnil])⟩

/-- Helper: every membership produced by a successful `buildMemberships`
run comes from an input entry whose `vibboEnabled` member is truthy. -/
theorem buildMemberships_mem (entries : List JValue) (ms : List Membership)
    (h : buildMemberships entries = .ok ms) :
    ∀ mem ∈ ms, ∃ e ∈ entries, ∃ en,
      pyGetD e "vibboEnabled" .jnull = .ok en ∧ en.truthy = true ∧
      membershipOfEntry e = .ok mem := by
  induction entries generalizing ms with
  | nil =>
    unfold buildMemberships at h
    have hms := Except.ok.inj h
    subst hms
    simp
  | cons m rest ih =>
    unfold buildMemberships at h
    split at h
    · exact Except.noConfusion h
    · rename_i en hEn
      by_cases ht : en.truthy = true
      · rw [if_pos ht] at h
        split at h
        · exact Except.noConfusion h
        · rename_i mem0 hm0
          split at h
          · exact Except.noConfusion h
          · rename_i tail htail
            have hms := Except.ok.inj h
            subst hms
            intro mem hmem
            rcases List.mem_cons.mp hmem with rfl | hmem'
            · exact ⟨m, List.mem_cons_self m rest, en, hEn, ht, hm0⟩
            · obtain ⟨e, he, en', h1, h2, h3⟩ := ih tail htail mem hmem'
              exact ⟨e, List.mem_cons_of_mem m he, en', h1, h2, h3⟩
      · rw [if_neg ht] at h
        intro mem hmem
        obtain ⟨e, he, en', h1, h2, h3⟩ := ih ms h mem hmem
        exact ⟨e, List.mem_cons_of_mem m he, en', h1, h2, h3⟩

/-- Helper: `membershipOfEntry` always leaves `org_id` at its
dataclass default, the empty string. -/
theorem membershipOfEntry_org_id_default (m : JValue) (mem : Membership)
    (h : membershipOfEntry m = .ok mem) : mem.org_id = .jstr "" := by
  unfold membershipOfEntry at h
  split at h
  · exact Except.noConfusion h
  · split at h
    · exact Except.noConfusion h
    · split at h
      · exact Except.noConfusion h
      · split at h
        · exact Except.noConfusion h
        · have hm := Except.ok.inj h
          subst hm
          rfl

/-- Claim C9: a successful `fetch_organizations` call never returns an
empty list (the empty case raises `AuthError` instead), and every
returned membership stems from a response entry whose `vibboEnabled`
member is truthy — entries with a falsy or absent `vibboEnabled` are
silently dropped. -/
theorem fetch_organizations_nonempty_and_vibbo_only (status : Nat) (data : JValue)
    (ms : List Membership) (h : fetch_organizations status data = .ok ms) :
    ms ≠ [] ∧ ∃ entries, viewerEntries data = .ok entries ∧
      ∀ mem ∈ ms, ∃ e ∈ entries, ∃ en,
        pyGetD e "vibboEnabled" .jnull = .ok en ∧ en.truthy = true ∧
        membershipOfEntry e = .ok mem := by
  unfold fetch_organizations at h
  split at h
  · exact Except.noConfusion h
  · rename_i d heq
    have hd := graphqlResult_ok _ _ _ _ heq
    subst hd
    obtain ⟨entries, hve, hbm, hne⟩ := fetchOrganizationsFromData_ok_inv _ _ h
    exact ⟨hne, entries, hve, buildMemberships_mem entries ms hbm⟩

/-- Witness for C9 at a concrete organizations response holding one
eligible and one ineligible membership. -/
theorem fetch_organizations_nonempty_and_vibbo_only_witness :
    ([demoMembership] ≠ ([] : List Membership)) ∧
    ∃ entries, viewerEntries demoOrgData = .ok entries ∧
      ∀ mem ∈ [demoMembership], ∃ e ∈ entries, ∃ en,
        pyGetD e "vibboEnabled" .jnull = .ok en ∧ en.truthy = true ∧
        membershipOfEntry e = .ok mem :=
  fetch_organizations_nonempty_and_vibbo_only 200 demoOrgData [demoMembership] rfl

/-- Claim C4 (counterexample): at a concrete organizations response the
membership returned by `fetch_organizations` — with every raw field
present in the response — carries the empty string as its organization
id: the claim that every returned `Membership` has a populated
organization id fails at this input. -/
theorem membership_org_id_not_populated_cex :
    fetch_organizations 200 demoOrgData = .ok [demoMembership] ∧
    demoMembership.org_id = .jstr "" :=
  ⟨rfl, rfl⟩

/-- Claim C4 (amended): every `Membership` produced by
`fetch_organizations` carries name, slug, company number and roles from
the query response, while its `org_id` field is always the empty-string
dataclass default — the organization id is resolved later by the
separate `fetch_organization_id` query. -/
theorem memberships_carry_default_org_id (status : Nat) (data : JValue)
    (ms : List Membership) (h : fetch_organizations status data = .ok ms) :
    ∀ mem ∈ ms, mem.org_id = .jstr "" := by
  unfold fetch_organizations at h
  split at h
  · exact Except.noConfusion h
  · rename_i d heq
    have hd := graphqlResult_ok _ _ _ _ heq
    subst hd
    obtain ⟨entries, hve, hbm, hne⟩ := fetchOrganizationsFromData_ok_inv _ _ h
    intro mem hmem
    obtain ⟨e, he, en, h1, h2, h3⟩ := buildMemberships_mem entries ms hbm mem hmem
    exact membershipOfEntry_org_id_default e mem h3

/-- Witness for the amended C4 at the concrete organizations
response. -/
theorem memberships_carry_default_org_id_witness :
    demoMembership.org_id = .jstr "" :=
  memberships_carry_default_org_id 200 demoOrgData [demoMembership] rfl
    demoMembership (by simp)

/-- Claim C3: the login-flow walker either produces a verified session
cookie string containing both the `sesid` and `sesid.sig` cookie values,
or fails with an error naming the failing step: `start_login` fails with
a missing-token message when `_csrf`, `state` or `nonce` cannot be
extracted, `request_sms_code` and `verify_code_and_get_cookie` fail on a
non-200 status (the latter with `Verification failed`), and the
verify step fails when either session cookie is absent after the
redirect chain. -/
theorem login_walker_contract :
    (∀ html url, (∃ s, start_login html url = .ok s) ∨
      start_login html url = .error "Could not find _csrf token in login page" ∨
      start_login html url = .error "Could not find state in login page" ∨
      start_login html url = .error "Could not find nonce in login page") ∧
    (∀ html url, findCsrf html = none →
      start_login html url = .error "Could not find _csrf token in login page") ∧
    (∀ status text, status ≠ 200 →
      request_sms_code status text =
        .error ("Failed to request SMS code: " ++ toString status ++ " " ++ text)) ∧
    (∀ status text jar c, verify_code_and_get_cookie status text jar = .ok c →
      ∃ s g, cookieJarLookup jar "sesid" = some s ∧
        cookieJarLookup jar "sesid.sig" = some g ∧
        s ≠ "" ∧ g ≠ "" ∧ c = "sesid=" ++ s ++ "; sesid.sig=" ++ g) ∧
    (∀ status text jar, status ≠ 200 →
      verify_code_and_get_cookie status text jar =
        .error ("Verification failed: " ++ toString status ++ " " ++ text)) ∧
    (∀ text jar, (cookieJarLookup jar "sesid" = none ∨
        cookieJarLookup jar "sesid.sig" = none) →
      verify_code_and_get_cookie 200 text jar =
        .error "Failed to obtain Vibbo session cookies after login") := by
  refine ⟨?_, ?_, ?_, ?_, ?_, ?_⟩
  · intro html url
    unfold start_login
    cases findCsrf html with
    | none => exact Or.inr (Or.inl rfl)
    | some csrf =>
      cases stateLookup html url with
      | none => exact Or.inr (Or.inr (Or.inl rfl))
      | some st =>
        cases nonceLookup html url with
        | none => exact Or.inr (Or.inr (Or.inr rfl))
        | some no => exact Or.inl ⟨_, rfl⟩
  · intro html url h
    unfold start_login
    rw [h]
  · intro status text h
    unfold request_sms_code
    rw [if_pos h]
  · intro status text jar c h
    unfold verify_code_and_get_cookie at h
    by_cases hst : status ≠ 200
    · rw [if_pos hst] at h
      exact Except.noConfusion h
    · rw [if_neg hst] at h
      cases hs : cookieJarLookup jar "sesid" with
      | none =>
        rw [hs] at h
        exact Except.noConfusion h
      | some s =>
        rw [hs] at h
        cases hg : cookieJarLookup jar "sesid.sig" with
        | none =>
          rw [hg] at h
          exact Except.noConfusion h
        | some g =>
          rw [hg] at h
          have h' : (if s = "" ∨ g = "" then
              (Except.error "Failed to obtain Vibbo session cookies after login" :
                Except String String)
            else .ok ("sesid=" ++ s ++ "; sesid.sig=" ++ g)) = .ok c := h
          by_cases hempty : s = "" ∨ g = ""
          · rw [if_pos hempty] at h'
            exact Except.noConfusion h'
          · rw [if_neg hempty] at h'
            rcases not_or.mp hempty with ⟨hs0, hg0⟩
            exact ⟨s, g, rfl, rfl, hs0, hg0, (Except.ok.inj h').symm⟩
  · intro status text jar h
    unfold verify_code_and_get_cookie
    rw [if_pos h]
  · intro text jar h
    unfold verify_code_and_get_cookie
    rw [if_neg (fun hh : (200 : Nat) ≠ 200 => hh rfl)]
    rcases h with h | h
    · rw [h]
    · cases hs : cookieJarLookup jar "sesid" with
      | none => rfl
      | some s => rw [h]

/-- Witness for C3: each hypothesized clause applied at a concrete
login run. -/
theorem login_walker_contract_witness :
    request_sms_code 404 "nope" =
      .error ("Failed to request SMS code: " ++ toString 404 ++ " " ++ "nope") ∧
    (∃ s g, cookieJarLookup demoJar "sesid" = some s ∧
      cookieJarLookup demoJar "sesid.sig" = some g ∧ s ≠ "" ∧ g ≠ "" ∧
      "sesid=abc; sesid.sig=def" = "sesid=" ++ s ++ "; sesid.sig=" ++ g) ∧
    verify_code_and_get_cookie 403 "denied" demoJar =
      .error ("Verification failed: " ++ toString 403 ++ " " ++ "denied") ∧
    verify_code_and_get_cookie 200 "" [] =
      .error "Failed to obtain Vibbo session cookies after login" ∧
    start_login "" demoLoginUrl = .error "Could not find _csrf token in login page" :=
  ⟨login_walker_contract.2.2.1 404 "nope" (by decide),
   login_walker_contract.2.2.2.1 200 "" demoJar "sesid=abc; sesid.sig=def" rfl,
   login_walker_contract.2.2.2.2.1 403 "denied" demoJar (by decide),
   login_walker_contract.2.2.2.2.2 "" [] (Or.inl rfl),
   login_walker_contract.2.1 "" demoLoginUrl rfl⟩

/-- Helper: dropping leading whitespace ignores a whitespace head. -/
theorem dropWs_cons_of_ws (c : Char) (l : List Char) (h : pyWs c = true) :
    dropWs (c :: l) = dropWs l := by
  simp [dropWs, h]

/-- Helper: an all-whitespace list strips to nothing. -/
theorem dropWs_of_allWs (l : List Char) (h : l.all pyWs = true) :
    dropWs l = [] := by
  induction l with
  | nil => rfl
  | cons c cs ih =>
    simp only [List.all_cons, Bool.and_eq_true] at h
    simp [dropWs, h.1, ih h.2]

/-- Helper: stripping a list with a trailing whitespace character. -/
theorem dropWs_append_ws (c : Char) (m : List Char) (hc : pyWs c = true) :
    dropWs (m ++ [c]) = if m.all pyWs then [] else dropWs m ++ [c] := by
  induction m with
  | nil => simp [dropWs, hc]
  | cons a m' ih =>
    by_cases ha : pyWs a = true
    · simp [dropWs, ha, ih, List.all_cons]
    · simp [dropWs, ha, List.all_cons]

/-- Helper: the head left by `dropWs` is never whitespace. -/
theorem dropWs_head_not_ws (l : List Char) :
    ∀ c', (dropWs l).head? = some c' → pyWs c' = false := by
  induction l with
  | nil => intro c' h; cases h
  | cons c cs ih =>
    intro c' h
    by_cases hc : pyWs c = true
    · exact ih c' (by rwa [dropWs_cons_of_ws c cs hc] at h)
    · rw [show dropWs (c :: cs) = c :: cs by simp [dropWs, hc]] at h
      injection h with h'
      subst h'
      simpa using hc

/-- Helper: `dropWs` preserves the last element when the result is
non-empty. -/
theorem dropWs_getLast? (l : List Char) :
    dropWs l = [] ∨ (dropWs l).getLast? = l.getLast? := by
  induction l with
  | nil => exact Or.inl rfl
  | cons c cs ih =>
    by_cases hc : pyWs c = true
    · rw [dropWs_cons_of_ws c cs hc]
      by_cases hnil : dropWs cs = []
      · exact Or.inl hnil
      · right
        rcases ih with h | h
        · exact absurd h hnil
        · rw [h]
          cases cs with
          | nil => exact absurd rfl hnil
          | cons b bs => rw [List.getLast?_cons_cons]
    · right
      rw [show dropWs (c :: cs) = c :: cs by simp [dropWs, hc]]

/-- Helper: stripping ignores a leading whitespace character. -/
theorem pyStrip_cons_ws (c : Char) (s : String) (hc : pyWs c = true) :
    pyStrip (String.mk (c :: s.data)) = pyStrip s := by
  show String.mk (dropWs ((dropWs ((c :: s.data).reverse)).reverse)) = _
  rw [List.reverse_cons]
  rw [dropWs_append_ws c s.data.reverse hc]
  by_cases hall : s.data.reverse.all pyWs = true
  · rw [if_pos hall]
    unfold pyStrip
    rw [dropWs_of_allWs s.data.reverse hall]
  · rw [if_neg hall]
    rw [List.reverse_append]
    rw [show (([c] : List Char).reverse ++ (dropWs s.data.reverse).reverse) =
      c :: (dropWs s.data.reverse).reverse from rfl]
    rw [dropWs_cons_of_ws _ _ hc]
    rfl

/-- Helper: stripping ignores a trailing whitespace character. -/
theorem pyStrip_append_ws (c : Char) (s : String) (hc : pyWs c = true) :
    pyStrip (String.mk (s.data ++ [c])) = pyStrip s := by
  show String.mk (dropWs ((dropWs ((s.data ++ [c]).reverse)).reverse)) = _
  rw [List.reverse_append]
  rw [show (([c] : List Char).reverse ++ s.data.reverse) =
    c :: s.data.reverse from rfl]
  rw [dropWs_cons_of_ws _ _ hc]
  rfl

/-- Claim C10: the setup flow strips surrounding whitespace from the
submitted phone number and prefixes `+47` exactly when the stripped
number does not already start with `+`: the normalized number is the
stripped input in the `+` case and `+47` plus the stripped input
otherwise; surrounding whitespace never changes the outcome, and a
stripped number neither starts nor ends with whitespace. -/
theorem phone_number_normalization (s : String) (c : Char) (hc : pyWs c = true) :
    (pyStartsWith (pyStrip s) "+" = true → normalize_phone s = pyStrip s) ∧
    (pyStartsWith (pyStrip s) "+" = false →
      normalize_phone s = "+47" ++ pyStrip s) ∧
    normalize_phone (String.mk (c :: s.data)) = normalize_phone s ∧
    normalize_phone (String.mk (s.data ++ [c])) = normalize_phone s ∧
    (∀ c', (pyStrip s).data.head? = some c' → pyWs c' = false) ∧
    (∀ c', (pyStrip s).data.getLast? = some c' → pyWs c' = false) := by
  refine ⟨?_, ?_, ?_, ?_, ?_, ?_⟩
  · intro h
    simp [normalize_phone, h]
  · intro h
    simp [normalize_phone, h]
  · unfold normalize_phone
    rw [pyStrip_cons_ws c s hc]
  · unfold normalize_phone
    rw [pyStrip_append_ws c s hc]
  · exact fun c' h => dropWs_head_not_ws _ c' h
  · intro c' h
    have hdata : (pyStrip s).data = dropWs ((dropWs s.data.reverse).reverse) := rfl
    rw [hdata] at h
    rcases dropWs_getLast? ((dropWs s.data.reverse).reverse) with hnil | hlast
    · rw [hnil] at h
      cases h
    · rw [hlast, List.getLast?_reverse] at h
      exact dropWs_head_not_ws _ c' h

/-- Witness for C10: a leading space never changes the normalized
number. -/
theorem phone_number_normalization_witness :
    normalize_phone (String.mk (' ' :: "47123456".data)) =
      normalize_phone "47123456" :=
  (phone_number_normalization "47123456" ' ' rfl).2.2.1

end Vibbo
